import Mathlib

/-!
Verification of the soft-delete / pagination / permission model of the
Challenge_FastApi blog backend (`src/app`), as a shallow embedding.

Modelling conventions:
* Each SQLAlchemy model becomes a Lean structure of its mapped columns;
  `datetime` values are abstracted as `Nat` instants (a "now" parameter is
  passed where the code calls `datetime.now`).
* A database snapshot is a `DB` of four record lists, each list given in the
  order the relevant query's `order_by` would produce; `offset/limit` become
  `List.drop/List.take`.  All verified claims are invariant under the
  permutation an `order_by` change would induce (they concern lengths,
  membership and per-record fields only).
* `scalar_one_or_none` on a primary-key (or primary-key plus flag) filter
  becomes `List.find?`; theorems that need "at most one row per id" carry an
  explicit `Nodup` hypothesis on the id column, which the schema's primary
  keys guarantee.
* An in-place ORM mutation of a fetched row becomes a `List.map` that rewrites
  the (unique) record with the given id.
* `HTTPException(status_code=s)` becomes `Except.error s`; a route handler is
  a function `DB → ... → Except status result × DB`, the returned `DB` being
  the committed (or rolled-back, i.e. unchanged) state.
* For claim C9 an `exc : Bool` parameter injects "the underlying database
  call raised an unexpected exception" at the single `db.execute` the claim
  is about; `try/except` blocks of the source are mirrored by branching on it.

Source note: `app/models/post.py` declares `Post` without `SoftDeleteMixin`,
yet `app/crud/post.py` filters on `Post.is_deleted` and calls
`post.soft_delete()`; `app/models/comment.py` re-declares the `comments`
table with the mixin (`extend_existing=True`).  The embedding follows the
crud layer (and the data-model section of the documentation), which treats
posts as carrying `is_deleted`/`deleted_at`.
-/

/-- `app/models/user.py`: the `users` table (columns only; relationships are
recovered from the foreign keys of the other tables). -/
structure UserRec where
  id : Nat
  username : String
  email : String
  full_name : String
  hashed_password : String
  is_active : Bool
  is_admin : Bool
  is_deleted : Bool
  deleted_at : Option Nat
deriving Repr, DecidableEq

/-- `app/models/post.py` (plus the soft-delete columns used by `crud/post.py`):
the `posts` table. -/
structure PostRec where
  id : Nat
  title : String
  content : String
  author_id : Nat
  created_at : Nat
  updated_at : Option Nat
  is_deleted : Bool
  deleted_at : Option Nat
deriving Repr, DecidableEq

/-- `app/models/comment.py`: the `comments` table. -/
structure CommentRec where
  id : Nat
  content : String
  post_id : Nat
  author_id : Nat
  updated_at : Option Nat
  is_deleted : Bool
  deleted_at : Option Nat
deriving Repr, DecidableEq

/-- `app/models/tag.py`: the `tags` table. -/
structure TagRec where
  id : Nat
  name : String
  is_deleted : Bool
  deleted_at : Option Nat
deriving Repr, DecidableEq

/-- A snapshot of the relational store. -/
structure DB where
  users : List UserRec
  posts : List PostRec
  comments : List CommentRec
  tags : List TagRec
deriving Repr, DecidableEq

/-- `SoftDeleteMixin.soft_delete` (`app/models/base.py` lines 36-38) for posts. -/
def PostRec.soft_delete (now : Nat) (p : PostRec) : PostRec :=
  { p with is_deleted := true, deleted_at := some now }

/-- `SoftDeleteMixin.restore` (`app/models/base.py` lines 40-42) for posts. -/
def PostRec.restore (p : PostRec) : PostRec :=
  { p with is_deleted := false, deleted_at := none }

/-- `SoftDeleteMixin.soft_delete` for comments. -/
def CommentRec.soft_delete (now : Nat) (c : CommentRec) : CommentRec :=
  { c with is_deleted := true, deleted_at := some now }

/-- `SoftDeleteMixin.restore` for comments. -/
def CommentRec.restore (c : CommentRec) : CommentRec :=
  { c with is_deleted := false, deleted_at := none }

/-- `SoftDeleteMixin.soft_delete` for tags. -/
def TagRec.soft_delete (now : Nat) (t : TagRec) : TagRec :=
  { t with is_deleted := true, deleted_at := some now }

/-- `SoftDeleteMixin.restore` for tags. -/
def TagRec.restore (t : TagRec) : TagRec :=
  { t with is_deleted := false, deleted_at := none }

/-- `SoftDeleteMixin.soft_delete` for users. -/
def UserRec.soft_delete (now : Nat) (u : UserRec) : UserRec :=
  { u with is_deleted := true, deleted_at := some now }

/-- `SoftDeleteMixin.restore` for users. -/
def UserRec.restore (u : UserRec) : UserRec :=
  { u with is_deleted := false, deleted_at := none }

/-- In-place mutation of the row of `posts` with primary key `post_id`. -/
def DB.updatePost (db : DB) (post_id : Nat) (f : PostRec → PostRec) : DB :=
  { db with posts := db.posts.map fun p => if p.id = post_id then f p else p }

/-- In-place mutation of the row of `comments` with primary key `comment_id`. -/
def DB.updateComment (db : DB) (comment_id : Nat) (f : CommentRec → CommentRec) : DB :=
  { db with comments := db.comments.map fun c => if c.id = comment_id then f c else c }

/-- In-place mutation of the row of `tags` with primary key `tag_id`. -/
def DB.updateTag (db : DB) (tag_id : Nat) (f : TagRec → TagRec) : DB :=
  { db with tags := db.tags.map fun t => if t.id = tag_id then f t else t }

/-- In-place mutation of the row of `users` with primary key `user_id`. -/
def DB.updateUser (db : DB) (user_id : Nat) (f : UserRec → UserRec) : DB :=
  { db with users := db.users.map fun u => if u.id = user_id then f u else u }

/-- `crud/post.py, get_post`: select the post with the given id that is not
soft-deleted. -/
def get_post (db : DB) (post_id : Nat) : Option PostRec :=
  db.posts.find? fun p => p.id == post_id && p.is_deleted == false

/-- `crud/comment.py, get_comment`: select the comment with the given id that
is not soft-deleted. -/
def get_comment (db : DB) (comment_id : Nat) : Option CommentRec :=
  db.comments.find? fun c => c.id == comment_id && c.is_deleted == false

/-- `crud/tag.py, get_tag`: select the tag with the given id that is not
soft-deleted. -/
def get_tag (db : DB) (tag_id : Nat) : Option TagRec :=
  db.tags.find? fun t => t.id == tag_id && t.is_deleted == false

/-- `crud/user.py, get_user`: select the user with the given id; the source
carries no `is_deleted` filter ("incluye eliminados"). -/
def get_user (db : DB) (user_id : Nat) : Option UserRec :=
  db.users.find? fun u => u.id == user_id

/-- `crud/user.py, get_user_with_posts`: select the user with the given id
that is not soft-deleted. -/
def get_user_with_posts (db : DB) (user_id : Nat) : Option UserRec :=
  db.users.find? fun u => u.id == user_id && u.is_deleted == false

/-- `crud/user.py, get_user_by_username`: exact (case-sensitive) username
match, with no `is_deleted` filter. -/
def get_user_by_username (db : DB) (username : String) : Option UserRec :=
  db.users.find? fun u => u.username == username

/-- `crud/user.py, get_user_by_email`: exact (case-sensitive) email match
among non-deleted users. -/
def get_user_by_email (db : DB) (email : String) : Option UserRec :=
  db.users.find? fun u => u.email == email && u.is_deleted == false

/-- Model of Python `str.lower` (adequate for the ASCII identifiers)
as a per-character map, kept kernel-computable. -/
def str_lower (s : String) : String := ⟨s.data.map Char.toLower⟩

/-- `crud/tag.py, get_tag_by_name`: case-insensitive name match (the query
lower-cases both sides) among non-deleted tags. -/
def get_tag_by_name (db : DB) (name : String) : Option TagRec :=
  db.tags.find? fun t => str_lower t.name == str_lower name && t.is_deleted == false

/-- `crud/post.py, get_posts_paginated`: the page of non-deleted posts at
`offset skip, limit limit`, paired with the count of all non-deleted posts. -/
def get_posts_paginated (db : DB) (skip limit : Nat) : List PostRec × Nat :=
  let active := db.posts.filter fun p => p.is_deleted == false
  ((active.drop skip).take limit, active.length)

/-- `crud/tag.py, get_tags_paginated`: the page of non-deleted tags plus the
count of all non-deleted tags. -/
def get_tags_paginated (db : DB) (skip limit : Nat) : List TagRec × Nat :=
  let active := db.tags.filter fun t => t.is_deleted == false
  ((active.drop skip).take limit, active.length)

/-- `crud/user.py, get_users_paginated`. -/
def get_users_paginated (db : DB) (skip limit : Nat) : List UserRec × Nat :=
  let active := db.users.filter fun u => u.is_deleted == false
  ((active.drop skip).take limit, active.length)

/-- `crud/post.py, get_deleted_posts`: the page of soft-deleted posts. -/
def get_deleted_posts (db : DB) (skip limit : Nat) : List PostRec :=
  ((db.posts.filter fun p => p.is_deleted == true).drop skip).take limit

/-- `crud/tag.py, get_deleted_tags`: the page of soft-deleted tags. -/
def get_deleted_tags (db : DB) (skip limit : Nat) : List TagRec :=
  ((db.tags.filter fun t => t.is_deleted == true).drop skip).take limit

/-- `crud/user.py, get_deleted_users`: the page of soft-deleted users. -/
def get_deleted_users (db : DB) (skip limit : Nat) : List UserRec :=
  ((db.users.filter fun u => u.is_deleted == true).drop skip).take limit

/-- `crud/post.py, delete_post`: fetch via `get_post` (active only); if found,
`soft_delete` and commit, returning `True`, else `False`. -/
def delete_post (now : Nat) (db : DB) (post_id : Nat) : Bool × DB :=
  match get_post db post_id with
  | none => (false, db)
  | some _ => (true, db.updatePost post_id (PostRec.soft_delete now))

/-- `crud/post.py, restore_post`: fetch by id with no flag filter; restore and
return `True` only when the post exists and `is_deleted` is set, else `False`. -/
def restore_post (db : DB) (post_id : Nat) : Bool × DB :=
  match db.posts.find? (fun p => p.id == post_id) with
  | some p =>
      if p.is_deleted then (true, db.updatePost post_id PostRec.restore)
      else (false, db)
  | none => (false, db)

/-- `crud/comment.py, delete_comment`: fetch via `get_comment`; if found,
`soft_delete`, returning `True`, else `False`. -/
def delete_comment (now : Nat) (db : DB) (comment_id : Nat) : Bool × DB :=
  match get_comment db comment_id with
  | none => (false, db)
  | some _ => (true, db.updateComment comment_id (CommentRec.soft_delete now))

/-- `crud/comment.py, restore_comment`: restore and return `True` only when the
comment exists and `is_deleted` is set, else `False`. -/
def restore_comment (db : DB) (comment_id : Nat) : Bool × DB :=
  match db.comments.find? (fun c => c.id == comment_id) with
  | some c =>
      if c.is_deleted then (true, db.updateComment comment_id CommentRec.restore)
      else (false, db)
  | none => (false, db)

/-- `crud/tag.py, delete_tag`: fetch via `get_tag`; if found, `soft_delete`,
returning `True`, else `False`. -/
def delete_tag (now : Nat) (db : DB) (tag_id : Nat) : Bool × DB :=
  match get_tag db tag_id with
  | none => (false, db)
  | some _ => (true, db.updateTag tag_id (TagRec.soft_delete now))

/-- `crud/tag.py, restore_tag`: not found gives `False`; an already-active tag
gives `True` with no mutation; a deleted tag is restored with `True`. -/
def restore_tag (db : DB) (tag_id : Nat) : Bool × DB :=
  match db.tags.find? (fun t => t.id == tag_id) with
  | none => (false, db)
  | some t =>
      if t.is_deleted then (true, db.updateTag tag_id TagRec.restore)
      else (true, db)

/-- `crud/user.py, delete_user`: not found gives `False`; an already-deleted
user gives `True` with no mutation; an active user is soft-deleted with `True`. -/
def delete_user (now : Nat) (db : DB) (user_id : Nat) : Bool × DB :=
  match get_user db user_id with
  | none => (false, db)
  | some u =>
      if u.is_deleted then (true, db)
      else (true, db.updateUser user_id (UserRec.soft_delete now))

/-- `crud/user.py, restore_user`: not found gives `False`; an already-active
user gives `True` with no mutation; a deleted user is restored with `True`. -/
def restore_user (db : DB) (user_id : Nat) : Bool × DB :=
  match get_user db user_id with
  | none => (false, db)
  | some u =>
      if u.is_deleted then (true, db.updateUser user_id UserRec.restore)
      else (true, db)

/-- `schemas/tag.py, TagCreate`: the payload of a tag creation. -/
structure TagCreate where
  name : String
deriving Repr, DecidableEq

/-- `crud/tag.py, create_tag`: reject with 400 when `get_tag_by_name` (the
case-insensitive duplicate check) finds an existing tag, else insert a fresh
row; `new_id` stands for the autoincremented primary key. -/
def create_tag (db : DB) (tag : TagCreate) (new_id : Nat) : Except Nat TagRec × DB :=
  match get_tag_by_name db tag.name with
  | some _ => (.error 400, db)
  | none =>
      let db_tag : TagRec := { id := new_id, name := tag.name, is_deleted := false, deleted_at := none }
      (.ok db_tag, { db with tags := db.tags ++ [db_tag] })

/-- `schemas/user.py, UserCreate` (the fields the duplicate checks and the
insert consult). -/
structure UserCreate where
  username : String
  email : String
  full_name : String
  password : String
deriving Repr, DecidableEq

/-- `crud/user.py, create_user`: reject with 400 when the email (among active
users) or the username (among all users) is already taken, else insert;
`hash` stands for `get_password_hash` and `new_id` for the autoincremented
primary key. -/
def create_user (db : DB) (user : UserCreate) (hash : String → String) (new_id : Nat) :
    Except Nat UserRec × DB :=
  if (get_user_by_email db user.email).isSome then (.error 400, db)
  else if (get_user_by_username db user.username).isSome then (.error 400, db)
  else
    let db_user : UserRec :=
      { id := new_id, username := user.username, email := user.email,
        full_name := user.full_name, hashed_password := hash user.password,
        is_active := true, is_admin := false, is_deleted := false, deleted_at := none }
    (.ok db_user, { db with users := db.users ++ [db_user] })

/-- `api/routes/auth.py, register_user`: the route checks the username, then
the email, each rejecting with 400, then delegates to `create_user`. -/
def register_user (db : DB) (user : UserCreate) (hash : String → String) (new_id : Nat) :
    Except Nat UserRec × DB :=
  if (get_user_by_username db user.username).isSome then (.error 400, db)
  else if (get_user_by_email db user.email).isSome then (.error 400, db)
  else create_user db user hash new_id

/-- `schemas/post.py, PostUpdate`: both fields optional; `exclude_unset` means
only the provided ones are written. -/
structure PostUpdate where
  title : Option String
  content : Option String
deriving Repr, DecidableEq

/-- The field writes of `crud/post.py, update_post` lines 87-90: `setattr` for
each provided field, then `updated_at = func.now()`. -/
def apply_post_update (post_update : PostUpdate) (now : Nat) (p : PostRec) : PostRec :=
  { p with title := post_update.title.getD p.title,
           content := post_update.content.getD p.content,
           updated_at := some now }

/-- `crud/post.py, update_post`: fetch via `get_post` (active only); `None`
when absent, else write the provided fields and commit. -/
def update_post (now : Nat) (db : DB) (post_id : Nat) (post_update : PostUpdate) :
    Option PostRec × DB :=
  match get_post db post_id with
  | none => (none, db)
  | some db_post =>
      (some (apply_post_update post_update now db_post),
       db.updatePost post_id (apply_post_update post_update now))

/-- `api/routes/posts.py, update_post` (the PATCH route): 404 when the post is
absent, 403 when the caller is neither the recorded author nor an admin, else
delegate to the crud update; this handler re-raises `HTTPException`, so those
statuses reach the client.  The leading `is_active` test is the
`get_current_active_user` dependency. -/
def update_post_endpoint (now : Nat) (db : DB) (current_user : UserRec) (post_id : Nat)
    (post : PostUpdate) : Except Nat PostRec × DB :=
  if current_user.is_active = false then (.error 400, db)
  else
    match get_post db post_id with
    | none => (.error 404, db)
    | some db_post =>
        if db_post.author_id != current_user.id && !current_user.is_admin then
          (.error 403, db)
        else
          match update_post now db post_id post with
          | (none, db1) => (.error 500, db1)
          | (some updated, db1) => (.ok updated, db1)

/-- The body inside the `try` of `api/routes/posts.py, delete_post` (the DELETE
route): 404 when absent, 403 for a non-owner non-admin, else soft-delete. -/
def delete_post_route_body (now : Nat) (db : DB) (current_user : UserRec) (post_id : Nat) :
    Except Nat Unit × DB :=
  match get_post db post_id with
  | none => (.error 404, db)
  | some db_post =>
      if db_post.author_id != current_user.id && !current_user.is_admin then
        (.error 403, db)
      else
        match delete_post now db post_id with
        | (false, db1) => (.error 500, db1)
        | (true, db1) => (.ok (), db1)

/-- `api/routes/posts.py, delete_post`: unlike its sibling routes, this
handler's only clause is `except Exception`, which also catches the
`HTTPException`s raised in the body, so every error leaves as a generic 500. -/
def delete_post_endpoint (now : Nat) (db : DB) (current_user : UserRec) (post_id : Nat) :
    Except Nat Unit × DB :=
  if current_user.is_active = false then (.error 400, db)
  else
    match delete_post_route_body now db current_user post_id with
    | (.error _, db1) => (.error 500, db1)
    | (.ok r, db1) => (.ok r, db1)

/-- `schemas/comment.py, CommentUpdate`. -/
structure CommentUpdate where
  content : Option String
deriving Repr, DecidableEq

/-- The field writes of `api/routes/comments.py, update_comment` lines 92-95. -/
def apply_comment_update (comment_update : CommentUpdate) (now : Nat) (c : CommentRec) :
    CommentRec :=
  { c with content := comment_update.content.getD c.content, updated_at := some now }

/-- `api/routes/comments.py, update_comment` (the PATCH route): the active
comment is queried inline; 404 when absent, 403 for a non-owner non-admin,
else the fields are written; this handler re-raises `HTTPException`. -/
def update_comment_endpoint (now : Nat) (db : DB) (current_user : UserRec) (comment_id : Nat)
    (comment : CommentUpdate) : Except Nat CommentRec × DB :=
  if current_user.is_active = false then (.error 400, db)
  else
    match db.comments.find? (fun c => c.id == comment_id && c.is_deleted == false) with
    | none => (.error 404, db)
    | some db_comment =>
        if db_comment.author_id != current_user.id && !current_user.is_admin then
          (.error 403, db)
        else
          (.ok (apply_comment_update comment now db_comment),
           db.updateComment comment_id (apply_comment_update comment now))

/-- The body inside the `try` of `api/routes/comments.py, delete_comment`. -/
def delete_comment_route_body (now : Nat) (db : DB) (current_user : UserRec)
    (comment_id : Nat) : Except Nat Unit × DB :=
  match db.comments.find? (fun c => c.id == comment_id && c.is_deleted == false) with
  | none => (.error 404, db)
  | some db_comment =>
      if db_comment.author_id != current_user.id && !current_user.is_admin then
        (.error 403, db)
      else
        (.ok (), db.updateComment comment_id (CommentRec.soft_delete now))

/-- `api/routes/comments.py, delete_comment`: like the post DELETE route, its
only clause is `except Exception`, so the 404/403 raised in the body leave the
handler as a generic 500. -/
def delete_comment_endpoint (now : Nat) (db : DB) (current_user : UserRec)
    (comment_id : Nat) : Except Nat Unit × DB :=
  if current_user.is_active = false then (.error 400, db)
  else
    match delete_comment_route_body now db current_user comment_id with
    | (.error _, db1) => (.error 500, db1)
    | (.ok r, db1) => (.ok r, db1)

/-- `api/routes/comments.py, restore_comment`: admins only (403 otherwise);
404 when the comment is absent or not deleted, else restore it. -/
def restore_comment_endpoint (db : DB) (current_user : UserRec) (comment_id : Nat) :
    Except Nat CommentRec × DB :=
  if current_user.is_active = false then (.error 400, db)
  else if !current_user.is_admin then (.error 403, db)
  else
    match db.comments.find? (fun c => c.id == comment_id) with
    | none => (.error 404, db)
    | some db_comment =>
        if db_comment.is_deleted = false then (.error 404, db)
        else (.ok db_comment.restore, db.updateComment comment_id CommentRec.restore)

/-- `schemas/common.py, PaginatedResponse`. -/
structure PaginatedResponse (α : Type) where
  items : List α
  total : Nat
  page : Nat
  size : Nat
  total_pages : Nat
deriving Repr, DecidableEq

/-- `api/routes/posts.py, read_posts`: the paginated GET route and its
metadata arithmetic (lines 83-99). -/
def read_posts (db : DB) (skip limit : Nat) : PaginatedResponse PostRec :=
  let r := get_posts_paginated db skip limit
  { items := r.1, total := r.2,
    page := if limit > 0 then skip / limit + 1 else 1,
    size := r.1.length,
    total_pages := if limit > 0 then (r.2 + limit - 1) / limit else 1 }

/-- `api/routes/tags.py, read_tags`: same metadata arithmetic over tags. -/
def read_tags (db : DB) (skip limit : Nat) : PaginatedResponse TagRec :=
  let r := get_tags_paginated db skip limit
  { items := r.1, total := r.2,
    page := if limit > 0 then skip / limit + 1 else 1,
    size := r.1.length,
    total_pages := if limit > 0 then (r.2 + limit - 1) / limit else 1 }

/-- `crud/post.py, get_posts_paginated` with exception injection (`exc` means
"the database call raised an unexpected exception"): the function's own
`except Exception` clause swallows the error and returns `([], 0)`. -/
def get_posts_paginated_exc (exc : Bool) (db : DB) (skip limit : Nat) :
    List PostRec × Nat :=
  if exc then ([], 0) else get_posts_paginated db skip limit

/-- `crud/tag.py, get_tags_paginated` with exception injection: it likewise
returns `([], 0)` on an unexpected exception. -/
def get_tags_paginated_exc (exc : Bool) (db : DB) (skip limit : Nat) :
    List TagRec × Nat :=
  if exc then ([], 0) else get_tags_paginated db skip limit

/-- `api/routes/posts.py, read_posts` with exception injection at the crud
call: since `get_posts_paginated` never lets the exception escape, the route's
own `except` clause is not reached and the response is built normally. -/
def read_posts_exc (exc : Bool) (db : DB) (skip limit : Nat) :
    Except Nat (PaginatedResponse PostRec) :=
  let r := get_posts_paginated_exc exc db skip limit
  .ok { items := r.1, total := r.2,
        page := if limit > 0 then skip / limit + 1 else 1,
        size := r.1.length,
        total_pages := if limit > 0 then (r.2 + limit - 1) / limit else 1 }

/-- `api/routes/tags.py, read_tags` with exception injection at the crud call. -/
def read_tags_exc (exc : Bool) (db : DB) (skip limit : Nat) :
    Except Nat (PaginatedResponse TagRec) :=
  let r := get_tags_paginated_exc exc db skip limit
  .ok { items := r.1, total := r.2,
        page := if limit > 0 then skip / limit + 1 else 1,
        size := r.1.length,
        total_pages := if limit > 0 then (r.2 + limit - 1) / limit else 1 }

/-- `crud/post.py, get_post` with exception injection: its `except Exception`
clause re-raises `HTTPException(500)`. -/
def get_post_exc (exc : Bool) (db : DB) (post_id : Nat) : Except Nat (Option PostRec) :=
  if exc then .error 500 else .ok (get_post db post_id)

/-- `api/routes/posts.py, read_post` (single-post GET) with exception
injection: the 500 from `get_post` propagates (the handler re-raises
`HTTPException`); an absent post gives 404. -/
def read_post_exc (exc : Bool) (db : DB) (post_id : Nat) : Except Nat PostRec :=
  match get_post_exc exc db post_id with
  | .error s => .error s
  | .ok none => .error 404
  | .ok (some p) => .ok p

/-- The successive-pages traversal of the post listing: page `k` is the
request `skip = k * limit`, and a client that stops at the first page smaller
than `limit` requests exactly the pages below `ceil(total / limit)` (plus
possibly one further, empty, page). -/
def post_page_sizes (db : DB) (limit : Nat) : List Nat :=
  (List.range (((get_posts_paginated db 0 limit).2 + limit - 1) / limit)).map
    fun k => ((get_posts_paginated db (k * limit) limit).1).length

/-- The successive-pages traversal of the tag listing. -/
def tag_page_sizes (db : DB) (limit : Nat) : List Nat :=
  (List.range (((get_tags_paginated db 0 limit).2 + limit - 1) / limit)).map
    fun k => ((get_tags_paginated db (k * limit) limit).1).length

/-- `app/models/tag.py` line 14: the storage-level constraint on `tags` is
`unique=True` on the raw `name` column, i.e. it admits a table state iff the
names are pairwise distinct as exact strings (no lower-casing). -/
def tag_names_constraint (tags : List TagRec) : Prop :=
  (tags.map TagRec.name).Nodup

/-! Concrete fixtures used by witnesses and counterexamples. -/

/-- A sample active post with primary key `i + 1`. -/
def mkPost (i : Nat) : PostRec :=
  { id := i + 1, title := "t", content := "c", author_id := 1, created_at := i,
    updated_at := none, is_deleted := false, deleted_at := none }

/-- A snapshot holding exactly 15 active posts (the worked example of the
pagination design). -/
def db15 : DB := { users := [], posts := (List.range 15).map mkPost, comments := [], tags := [] }

/-- A snapshot holding one active post. -/
def db1post : DB := { users := [], posts := [mkPost 0], comments := [], tags := [] }

/-- A snapshot with one active user `alice` and one active tag `alice`, used
to exercise the duplicate checks. -/
def dbAlice : DB :=
  { users := [{ id := 1, username := "alice", email := "alice@ex.com", full_name := "A",
                hashed_password := "h", is_active := true, is_admin := false,
                is_deleted := false, deleted_at := none }],
    posts := [], comments := [],
    tags := [{ id := 1, name := "alice", is_deleted := false, deleted_at := none }] }

/-- A soft-deleted user. -/
def uDel : UserRec :=
  { id := 3, username := "bob", email := "b@x", full_name := "B",
    hashed_password := "h", is_active := true, is_admin := false,
    is_deleted := true, deleted_at := some 3 }

/-- A snapshot holding one soft-deleted record of each entity. -/
def dbDeleted : DB :=
  { users := [uDel],
    posts := [{ id := 2, title := "t", content := "c", author_id := 3, created_at := 0,
                updated_at := none, is_deleted := true, deleted_at := some 1 }],
    comments := [{ id := 2, content := "c", post_id := 2, author_id := 3,
                   updated_at := none, is_deleted := true, deleted_at := some 1 }],
    tags := [{ id := 2, name := "tg", is_deleted := true, deleted_at := some 1 }] }

/-- A snapshot with one active record of each entity plus an active admin,
used to exercise the restore branches. -/
def dbActive : DB :=
  { users := [{ id := 1, username := "u", email := "u@x", full_name := "U",
                hashed_password := "h", is_active := true, is_admin := false,
                is_deleted := false, deleted_at := none },
              { id := 9, username := "root", email := "r@x", full_name := "R",
                hashed_password := "h", is_active := true, is_admin := true,
                is_deleted := false, deleted_at := none }],
    posts := [mkPost 0],
    comments := [{ id := 1, content := "c", post_id := 1, author_id := 1,
                   updated_at := none, is_deleted := false, deleted_at := none }],
    tags := [{ id := 1, name := "tg", is_deleted := false, deleted_at := none }] }

/-- The author of post 1 and comment 1 in the ownership fixtures. -/
def uAuthor : UserRec :=
  { id := 1, username := "author", email := "a@x", full_name := "A",
    hashed_password := "h", is_active := true, is_admin := false,
    is_deleted := false, deleted_at := none }

/-- An active, non-admin user distinct from the author. -/
def uAtt : UserRec :=
  { id := 2, username := "mallory", email := "m@x", full_name := "M",
    hashed_password := "h", is_active := true, is_admin := false,
    is_deleted := false, deleted_at := none }

/-- An active admin. -/
def uAdmin : UserRec :=
  { id := 9, username := "root", email := "r@x", full_name := "R",
    hashed_password := "h", is_active := true, is_admin := true,
    is_deleted := false, deleted_at := none }

/-- Ownership fixture: post 1 and comment 1, both authored by user 1. -/
def dbOwn : DB :=
  { users := [uAuthor, uAtt, uAdmin],
    posts := [mkPost 0],
    comments := [{ id := 1, content := "c", post_id := 1, author_id := 1,
                   updated_at := none, is_deleted := false, deleted_at := none }],
    tags := [] }

/-! Generic list lemmas shared by the claims: a `find?` on a primary-key
filter returns the unique matching row, an in-place row update preserves the
key column, and offset/limit page sizes add up to the table size. -/

/-- On a list whose key column is duplicate-free, `find?` with a predicate
that pins the key down returns exactly the known matching element. -/
theorem find_pred_eq_some_of_nodup {α : Type} (key : α → Nat) :
    ∀ (l : List α), (l.map key).Nodup → ∀ t ∈ l, ∀ p : α → Bool,
      p t = true → (∀ x, p x = true → key x = key t) → l.find? p = some t := by
  intro l
  induction l with
  | nil => intro _ t ht; cases ht
  | cons a l ih =>
    intro hnd t ht p hpt hkey
    rw [List.map_cons, List.nodup_cons] at hnd
    rcases List.mem_cons.mp ht with rfl | htl
    · exact List.find?_cons_of_pos _ hpt
    · by_cases hpa : p a = true
      · exact absurd (by rw [hkey a hpa]; exact List.mem_map_of_mem key htl) hnd.1
      · rw [List.find?_cons_of_neg _ (by simp [hpa])]
        exact ih hnd.2 t htl p hpt hkey

/-- Rewriting the row with key `i` through a key-preserving `f` leaves the key
column of the table unchanged. -/
theorem map_key_update {α : Type} (key : α → Nat) (f : α → α)
    (hf : ∀ x, key (f x) = key x) (i : Nat) (l : List α) :
    ((l.map fun x => if key x = i then f x else x).map key) = l.map key := by
  induction l with
  | nil => rfl
  | cons a l ih =>
    simp only [List.map_cons, ih]
    by_cases h : key a = i <;> simp [h, hf]

/-- The updated row `f t` is a member of the rewritten table. -/
theorem mem_map_update_self {α : Type} (key : α → Nat) (f : α → α) (t : α)
    (l : List α) (ht : t ∈ l) :
    f t ∈ l.map fun x => if key x = key t then f x else x := by
  have h := List.mem_map_of_mem (fun x => if key x = key t then f x else x) ht
  simpa using h

/-- After the row with key `i` is rewritten by a deleting `f`, no row passes
an "`key = i` and not deleted" filter: rows with another key fail the key
test, and every row with key `i` was rewritten to a deleted one. -/
theorem find_active_eq_none_after_update {α : Type} (key : α → Nat) (isDel : α → Bool)
    (f : α → α) (hf : ∀ x, isDel (f x) = true) (i : Nat) (l : List α) :
    ((l.map fun x => if key x = i then f x else x).find?
      fun x => key x == i && isDel x == false) = none := by
  rw [List.find?_eq_none]
  intro x hx
  obtain ⟨y, hy, rfl⟩ := List.mem_map.mp hx
  by_cases h : key y = i <;> simp [h, hf]

/-- Membership in any offset/limit page of a filtered listing implies the
filter. -/
theorem filter_of_mem_page {α : Type} (p : α → Bool) (l : List α) (s n : Nat) (a : α)
    (h : a ∈ ((l.filter p).drop s).take n) : p a = true :=
  (List.mem_filter.mp (List.drop_subset _ _ (List.take_subset _ _ h))).2

/-- The ceiling-of-division page count: summing `min m (n - k*m)` over
`k < (n + m - 1) / m` gives back `n` whenever `m ≥ 1`. -/
theorem range_min_sum (m : Nat) (hm : 1 ≤ m) :
    ∀ n, ((List.range ((n + m - 1) / m)).map fun k => min m (n - k * m)).sum = n := by
  intro n
  induction n using Nat.strong_induction_on with
  | _ n ih =>
    rcases Nat.eq_zero_or_pos n with rfl | hn
    · rw [Nat.zero_add, Nat.div_eq_of_lt (by omega)]
      simp
    · by_cases hnm : n ≤ m
      · have hc : (n + m - 1) / m = 1 := by
          apply Nat.div_eq_of_lt_le (by omega) (by omega)
        rw [hc]
        simp [List.range_succ, Nat.min_def]
        omega
      · have hmn : m < n := lt_of_not_le hnm
        have hc : (n + m - 1) / m = (n - m + m - 1) / m + 1 := by
          have h1 : n + m - 1 = (n - m + m - 1) + m := by omega
          rw [h1, Nat.add_div_right _ hm]
        have haux : ∀ k : Nat, n - (k + 1) * m = n - m - k * m := by
          intro k
          rw [Nat.succ_mul, Nat.sub_sub, Nat.add_comm, ← Nat.sub_sub]
        rw [hc, List.range_succ_eq_map]
        simp only [List.map_cons, List.sum_cons, List.map_map, Function.comp_def,
          Nat.zero_mul, Nat.sub_zero, Nat.succ_eq_add_one, haux]
        rw [ih (n - m) (by omega)]
        have hmin : min m n = m := min_eq_left (le_of_lt hmn)
        omega

/-- Summing the lengths of the successive offset/limit pages over a full
ceiling-of-division page count recovers the length of the list. -/
theorem page_sizes_sum {α : Type} (l : List α) (m : Nat) (hm : 1 ≤ m) :
    ((List.range ((l.length + m - 1) / m)).map
      fun k => ((l.drop (k * m)).take m).length).sum = l.length := by
  have h : ∀ k : Nat, ((l.drop (k * m)).take m).length = min m (l.length - k * m) := by
    intro k
    simp [List.length_take, List.length_drop]
  simp only [h]
  exact range_min_sum m hm l.length

/-- Every page at or beyond the ceiling-of-division page count is empty. -/
theorem page_empty_beyond {α : Type} (l : List α) (m k : Nat) (hm : 1 ≤ m)
    (hk : (l.length + m - 1) / m ≤ k) : ((l.drop (k * m)).take m).length = 0 := by
  have hle : l.length ≤ k * m := by
    rcases Nat.eq_zero_or_pos l.length with h0 | hpos
    · omega
    · have h1 : (l.length + m - 1) / m = (l.length - 1) / m + 1 := by
        have h2 : l.length + m - 1 = (l.length - 1) + m := by omega
        rw [h2, Nat.add_div_right _ hm]
      have h3 : (l.length - 1) / m < k := by omega
      have h4 := (Nat.div_lt_iff_lt_mul hm).mp h3
      omega
  simp only [List.length_take, List.length_drop]
  omega

/-- On a table with duplicate-free keys, the "by key and not deleted" lookup
misses a soft-deleted row: any row passing the filter would have the same key,
hence be that row, hence be deleted. -/
theorem find_eq_none_of_deleted {α : Type} (key : α → Nat) (isDel : α → Bool)
    (l : List α) (hnd : (l.map key).Nodup) (t : α) (ht : t ∈ l)
    (htd : isDel t = true) :
    (l.find? fun x => key x == key t && isDel x == false) = none := by
  rw [List.find?_eq_none]
  intro x hx hpx
  simp only [Bool.and_eq_true, beq_iff_eq] at hpx
  have hxt : x = t := List.inj_on_of_nodup_map hnd hx ht hpx.1
  rw [hxt, htd] at hpx
  exact absurd hpx.2 (by simp)

/-- Like `mem_map_update_self`, with the matched key value given explicitly. -/
theorem mem_map_update_key {α : Type} (key : α → Nat) (f : α → α) (t : α) (i : Nat)
    (l : List α) (ht : t ∈ l) (hit : key t = i) :
    f t ∈ l.map fun x => if key x = i then f x else x := by
  have h : (if key t = i then f t else t) ∈ l.map (fun x => if key x = i then f x else x) :=
    List.mem_map_of_mem _ ht
  rw [if_pos hit] at h
  exact h

/-- A row satisfying the filter is in the full first page (offset 0, limit at
least the table size) of the filtered listing. -/
theorem mem_flag_listing {α : Type} (pr : α → Bool) (l : List α) (a : α) (limit : Nat)
    (ha : a ∈ l) (hpa : pr a = true) (hlim : l.length ≤ limit) :
    a ∈ ((l.filter pr).drop 0).take limit := by
  rw [List.drop_zero, List.take_of_length_le (le_trans (List.length_filter_le _ _) hlim)]
  exact List.mem_filter.2 ⟨ha, hpa⟩

/-- The list-level content of the soft-delete/restore round trip, for any
entity with a key column, a deleted flag, and key-preserving
`soft_delete`/`restore` writes: after the in-place soft delete the row is
still stored but missing from every active page and present in the full
deleted page; the key lookup still finds it; and after the in-place restore
the row is back in the full active page. -/
theorem roundtrip_lists {α : Type} (key : α → Nat) (isDel : α → Bool) (sdel res : α → α)
    (hkey_s : ∀ x, key (sdel x) = key x)
    (hdel_s : ∀ x, isDel (sdel x) = true) (hdel_r : ∀ x, isDel (res x) = false)
    (l : List α) (hnd : (l.map key).Nodup) (t : α) (ht : t ∈ l) :
    sdel t ∈ (l.map fun x => if key x = key t then sdel x else x) ∧
    (∀ s n, sdel t ∉
      (((l.map fun x => if key x = key t then sdel x else x).filter
        fun x => isDel x == false).drop s).take n) ∧
    (∀ n, l.length ≤ n → sdel t ∈
      (((l.map fun x => if key x = key t then sdel x else x).filter
        fun x => isDel x == true).drop 0).take n) ∧
    ((l.map fun x => if key x = key t then sdel x else x).find?
      fun x => key x == key t) = some (sdel t) ∧
    (∀ n, l.length ≤ n → res (sdel t) ∈
      ((((l.map fun x => if key x = key t then sdel x else x).map
          fun x => if key x = key t then res x else x).filter
        fun x => isDel x == false).drop 0).take n) := by
  have hmem1 : sdel t ∈ (l.map fun x => if key x = key t then sdel x else x) :=
    mem_map_update_key key sdel t (key t) l ht rfl
  refine ⟨hmem1, ?_, ?_, ?_, ?_⟩
  · intro s n hmem
    have h := filter_of_mem_page (fun x => isDel x == false)
      (l.map fun x => if key x = key t then sdel x else x) s n (sdel t) hmem
    simp [hdel_s t] at h
  · intro n hn
    exact mem_flag_listing _ _ _ n hmem1 (by simp [hdel_s t]) (by simpa using hn)
  · have hnd1 : ((l.map fun x => if key x = key t then sdel x else x).map key).Nodup := by
      rw [map_key_update key sdel hkey_s (key t) l]
      exact hnd
    apply find_pred_eq_some_of_nodup key _ hnd1 (sdel t) hmem1
    · simp [hkey_s t]
    · intro x hx
      simp only [beq_iff_eq] at hx
      rw [hkey_s t]
      exact hx
  · intro n hn
    have hmem2 : res (sdel t) ∈
        ((l.map fun x => if key x = key t then sdel x else x).map
          fun x => if key x = key t then res x else x) :=
      mem_map_update_key key res (sdel t) (key t)
        (l.map fun x => if key x = key t then sdel x else x) hmem1 (hkey_s t)
    exact mem_flag_listing _ _ _ n hmem2 (by simp [hdel_r]) (by simpa using hn)

/-- C2: for every paginated post-list request with `limit ≥ 1`, the response
metadata satisfies `page = skip / limit + 1` and
`total_pages = ceil(total / limit)`; on the 15-post snapshot, `limit=10,
skip=0` yields `total=15`, `total_pages=2`, `size=10`, and `skip=10` yields
`size=5`. -/
theorem read_posts_pagination_meta (db : DB) (skip limit : Nat) (h : 1 ≤ limit) :
    (read_posts db skip limit).page = skip / limit + 1 ∧
    (read_posts db skip limit).total_pages = (read_posts db skip limit).total ⌈/⌉ limit ∧
    (read_posts db15 0 10).total = 15 ∧
    (read_posts db15 0 10).total_pages = 2 ∧
    (read_posts db15 0 10).size = 10 ∧
    (read_posts db15 10 10).size = 5 := by
  have hpos : 0 < limit := h
  refine ⟨?_, ?_, ?_, ?_, ?_, ?_⟩
  · simp [read_posts, hpos]
  · simp [read_posts, hpos, Nat.ceilDiv_eq_add_pred_div]
  · rfl
  · rfl
  · rfl
  · rfl

/-- Witness for `read_posts_pagination_meta` at `skip = 3`, `limit = 10` on
the 15-post snapshot. -/
theorem read_posts_pagination_meta_witness :
    (read_posts db15 3 10).page = 3 / 10 + 1 ∧
    (read_posts db15 3 10).total_pages = (read_posts db15 3 10).total ⌈/⌉ 10 ∧
    (read_posts db15 0 10).total = 15 ∧
    (read_posts db15 0 10).total_pages = 2 ∧
    (read_posts db15 0 10).size = 10 ∧
    (read_posts db15 10 10).size = 5 :=
  read_posts_pagination_meta db15 3 10 (by decide)

/-- C3: for every snapshot and `limit ≥ 1`, the sizes of the successive pages
(`skip = 0, limit, 2*limit, ...`) of the post and tag listings sum to the
reported total, and every page past that range is empty (so a client stopping
at the first short page has seen exactly `total` items). -/
theorem paginated_pages_cover_total (db : DB) (limit : Nat) (h : 1 ≤ limit) :
    (post_page_sizes db limit).sum = (get_posts_paginated db 0 limit).2 ∧
    (tag_page_sizes db limit).sum = (get_tags_paginated db 0 limit).2 ∧
    (∀ k, ((get_posts_paginated db 0 limit).2 + limit - 1) / limit ≤ k →
      ((get_posts_paginated db (k * limit) limit).1).length = 0) ∧
    (∀ k, ((get_tags_paginated db 0 limit).2 + limit - 1) / limit ≤ k →
      ((get_tags_paginated db (k * limit) limit).1).length = 0) := by
  refine ⟨?_, ?_, ?_, ?_⟩
  · exact page_sizes_sum (db.posts.filter fun p => p.is_deleted == false) limit h
  · exact page_sizes_sum (db.tags.filter fun t => t.is_deleted == false) limit h
  · intro k hk
    exact page_empty_beyond (db.posts.filter fun p => p.is_deleted == false) limit k h
      (by exact hk)
  · intro k hk
    exact page_empty_beyond (db.tags.filter fun t => t.is_deleted == false) limit k h
      (by exact hk)

/-- Witness for `paginated_pages_cover_total` on the 15-post snapshot with
`limit = 10`. -/
theorem paginated_pages_cover_total_witness :
    (post_page_sizes db15 10).sum = (get_posts_paginated db15 0 10).2 ∧
    (tag_page_sizes db15 10).sum = (get_tags_paginated db15 0 10).2 ∧
    (∀ k, ((get_posts_paginated db15 0 10).2 + 10 - 1) / 10 ≤ k →
      ((get_posts_paginated db15 (k * 10) 10).1).length = 0) ∧
    (∀ k, ((get_tags_paginated db15 0 10).2 + 10 - 1) / 10 ≤ k →
      ((get_tags_paginated db15 (k * 10) 10).1).length = 0) :=
  paginated_pages_cover_total db15 10 (by decide)

/-- C9 counterexample: on a snapshot holding one active post, injecting an
unexpected exception into the database call of the paginated post listing
does not produce a 500 - `get_posts_paginated` swallows the exception and the
route answers success with an empty page and `total = 0`. -/
theorem read_posts_swallows_exception :
    read_posts_exc true db1post 0 10 =
      .ok { items := [], total := 0, page := 1, size := 0, total_pages := 0 } ∧
    read_posts_exc false db1post 0 10 =
      .ok { items := [mkPost 0], total := 1, page := 1, size := 1, total_pages := 1 } := by
  constructor
  · rfl
  · rfl

/-- C6: a registration or creation request whose username, email or tag name
is already taken - among the records the respective duplicate check consults -
is rejected with 400 and the store is left unchanged (no row inserted). -/
theorem duplicate_rejected_400 (db : DB) (user : UserCreate) (tag : TagCreate)
    (hash : String → String) (uid tid : Nat) :
    ((get_user_by_username db user.username).isSome →
      register_user db user hash uid = (.error 400, db)) ∧
    ((get_user_by_email db user.email).isSome →
      register_user db user hash uid = (.error 400, db)) ∧
    ((get_user_by_username db user.username).isSome ∨
        (get_user_by_email db user.email).isSome →
      create_user db user hash uid = (.error 400, db)) ∧
    ((get_tag_by_name db tag.name).isSome →
      create_tag db tag tid = (.error 400, db)) := by
  refine ⟨?_, ?_, ?_, ?_⟩
  · intro h
    simp [register_user, h]
  · intro h
    by_cases hu : (get_user_by_username db user.username).isSome
    · simp [register_user, hu]
    · simp [register_user, create_user, hu, h]
  · intro h
    rcases h with h | h
    · by_cases he : (get_user_by_email db user.email).isSome
      · simp [create_user, he]
      · simp [create_user, he, h]
    · simp [create_user, h]
  · intro h
    obtain ⟨t, ht⟩ := Option.isSome_iff_exists.mp h
    simp [create_tag, ht]

/-- Witness for `duplicate_rejected_400` on `dbAlice` with the taken
username, email and tag name. -/
theorem duplicate_rejected_400_witness :
    ((get_user_by_username dbAlice "alice").isSome →
      register_user dbAlice ⟨"alice", "alice@ex.com", "A", "p"⟩ id 2 = (.error 400, dbAlice)) ∧
    ((get_user_by_email dbAlice "alice@ex.com").isSome →
      register_user dbAlice ⟨"alice", "alice@ex.com", "A", "p"⟩ id 2 = (.error 400, dbAlice)) ∧
    ((get_user_by_username dbAlice "alice").isSome ∨
        (get_user_by_email dbAlice "alice@ex.com").isSome →
      create_user dbAlice ⟨"alice", "alice@ex.com", "A", "p"⟩ id 2 = (.error 400, dbAlice)) ∧
    ((get_tag_by_name dbAlice "alice").isSome →
      create_tag dbAlice ⟨"alice"⟩ 2 = (.error 400, dbAlice)) :=
  duplicate_rejected_400 dbAlice ⟨"alice", "alice@ex.com", "A", "p"⟩ ⟨"alice"⟩ id 2 2

/-- C7: the tag-name duplicate check lower-cases both sides, so any new name
equal to a live tag's name up to letter case is rejected with 400 and nothing
is inserted; yet the storage-level unique constraint is on the raw name, so it
would admit the case-variant row; and the username/email checks are exact
string comparisons, demonstrated case-sensitive on `dbAlice`. -/
theorem tag_uniqueness_case_insensitive_check_only (db : DB) (name : String)
    (tid : Nat) (t : TagRec) (ht : t ∈ db.tags) (htd : t.is_deleted = false)
    (hlo : str_lower t.name = str_lower name) :
    create_tag db ⟨name⟩ tid = (.error 400, db) ∧
    (tag_names_constraint db.tags → name ∉ db.tags.map TagRec.name →
      tag_names_constraint (db.tags ++ [⟨tid, name, false, none⟩])) ∧
    get_user_by_username dbAlice "Alice" = none ∧
    get_user_by_email dbAlice "Alice@ex.com" = none ∧
    create_tag dbAlice ⟨"Alice"⟩ 2 = (.error 400, dbAlice) ∧
    ("Alice" : String) ≠ "alice" ∧
    tag_names_constraint (dbAlice.tags ++ [⟨2, "Alice", false, none⟩]) := by
  refine ⟨?_, ?_, by decide, by decide, by rfl, by decide, ?_⟩
  · have hsome : (get_tag_by_name db name).isSome := by
      rw [get_tag_by_name, List.find?_isSome]
      exact ⟨t, ht, by simp [hlo, htd]⟩
    obtain ⟨t', ht'⟩ := Option.isSome_iff_exists.mp hsome
    simp [create_tag, ht']
  · intro hc hn
    have hmap : (db.tags ++ [(⟨tid, name, false, none⟩ : TagRec)]).map TagRec.name
        = db.tags.map TagRec.name ++ [name] := by simp
    rw [tag_names_constraint, hmap]
    refine List.Nodup.append hc (List.nodup_singleton _) ?_
    intro x hx hmem
    rw [List.mem_singleton] at hmem
    subst hmem
    exact hn hx
  · rw [tag_names_constraint]
    decide

/-- Witness for `tag_uniqueness_case_insensitive_check_only`: the live tag
`alice` blocks the creation of `ALICE`. -/
theorem tag_uniqueness_case_insensitive_witness :
    create_tag dbAlice ⟨"ALICE"⟩ 2 = (.error 400, dbAlice) ∧
    (tag_names_constraint dbAlice.tags → "ALICE" ∉ dbAlice.tags.map TagRec.name →
      tag_names_constraint (dbAlice.tags ++ [⟨2, "ALICE", false, none⟩])) ∧
    get_user_by_username dbAlice "Alice" = none ∧
    get_user_by_email dbAlice "Alice@ex.com" = none ∧
    create_tag dbAlice ⟨"Alice"⟩ 2 = (.error 400, dbAlice) ∧
    ("Alice" : String) ≠ "alice" ∧
    tag_names_constraint (dbAlice.tags ++ [⟨2, "Alice", false, none⟩]) :=
  tag_uniqueness_case_insensitive_check_only dbAlice "ALICE" 2
    ⟨1, "alice", false, none⟩ (by decide) (by decide) (by decide)

/-- C1 counterexample: the by-ID user lookup does not return `None` for a
soft-deleted id - `get_user` carries no `is_deleted` filter and returns the
soft-deleted user. -/
theorem get_user_returns_soft_deleted :
    uDel.is_deleted = true ∧
    get_user dbDeleted 3 = some uDel ∧
    (get_user dbDeleted 3).isSome = true := by
  exact ⟨rfl, rfl, rfl⟩

/-- C1 amended: soft-deleted posts, comments and tags are invisible to their
by-ID lookups and soft-deleted rows are excluded from every default listing
page, while the by-ID user lookup `get_user` still returns a soft-deleted user
(`get_user_with_posts` is the user lookup that filters); soft-deleting never
removes a row from storage, and `restore` clears both the flag and the
timestamp on every entity. -/
theorem soft_delete_default_exclusion (db : DB) (skip limit now : Nat)
    (p : PostRec) (c : CommentRec) (t : TagRec) (u : UserRec)
    (hndp : (db.posts.map PostRec.id).Nodup) (hp : p ∈ db.posts) (hpd : p.is_deleted = true)
    (hndc : (db.comments.map CommentRec.id).Nodup) (hc : c ∈ db.comments)
    (hcd : c.is_deleted = true)
    (hndt : (db.tags.map TagRec.id).Nodup) (ht : t ∈ db.tags) (htd : t.is_deleted = true)
    (hndu : (db.users.map UserRec.id).Nodup) (hu : u ∈ db.users) (hud : u.is_deleted = true) :
    get_post db p.id = none ∧
    p ∉ (get_posts_paginated db skip limit).1 ∧
    get_comment db c.id = none ∧
    get_tag db t.id = none ∧
    t ∉ (get_tags_paginated db skip limit).1 ∧
    get_user_with_posts db u.id = none ∧
    u ∉ (get_users_paginated db skip limit).1 ∧
    get_user db u.id = some u ∧
    (∀ i, ((delete_post now db i).2.posts).length = db.posts.length) ∧
    (∀ i, ((delete_comment now db i).2.comments).length = db.comments.length) ∧
    (∀ i, ((delete_tag now db i).2.tags).length = db.tags.length) ∧
    (∀ i, ((delete_user now db i).2.users).length = db.users.length) ∧
    p.restore.is_deleted = false ∧ p.restore.deleted_at = none ∧
    c.restore.is_deleted = false ∧ c.restore.deleted_at = none ∧
    t.restore.is_deleted = false ∧ t.restore.deleted_at = none ∧
    u.restore.is_deleted = false ∧ u.restore.deleted_at = none := by
  refine ⟨?_, ?_, ?_, ?_, ?_, ?_, ?_, ?_, ?_, ?_, ?_, ?_,
    rfl, rfl, rfl, rfl, rfl, rfl, rfl, rfl⟩
  · exact find_eq_none_of_deleted PostRec.id PostRec.is_deleted db.posts hndp p hp hpd
  · intro hmem
    have h := filter_of_mem_page (fun x => x.is_deleted == false) db.posts skip limit p
      (by exact hmem)
    simp [hpd] at h
  · exact find_eq_none_of_deleted CommentRec.id CommentRec.is_deleted db.comments hndc c hc hcd
  · exact find_eq_none_of_deleted TagRec.id TagRec.is_deleted db.tags hndt t ht htd
  · intro hmem
    have h := filter_of_mem_page (fun x => x.is_deleted == false) db.tags skip limit t
      (by exact hmem)
    simp [htd] at h
  · exact find_eq_none_of_deleted UserRec.id UserRec.is_deleted db.users hndu u hu hud
  · intro hmem
    have h := filter_of_mem_page (fun x => x.is_deleted == false) db.users skip limit u
      (by exact hmem)
    simp [hud] at h
  · apply find_pred_eq_some_of_nodup UserRec.id db.users hndu u hu
    · simp
    · intro x hx
      simpa using hx
  · intro i
    cases hgp : get_post db i with
    | none => simp [delete_post, hgp]
    | some q => simp [delete_post, hgp, DB.updatePost]
  · intro i
    cases hgc : get_comment db i with
    | none => simp [delete_comment, hgc]
    | some q => simp [delete_comment, hgc, DB.updateComment]
  · intro i
    cases hgt : get_tag db i with
    | none => simp [delete_tag, hgt]
    | some q => simp [delete_tag, hgt, DB.updateTag]
  · intro i
    cases hgu : get_user db i with
    | none => simp [delete_user, hgu]
    | some q =>
        cases hq : q.is_deleted <;> simp [delete_user, hgu, hq, DB.updateUser]

/-- Witness for `soft_delete_default_exclusion` on the snapshot of four
soft-deleted records. -/
theorem soft_delete_default_exclusion_witness :
    get_post dbDeleted 2 = none ∧
    (⟨2, "t", "c", 3, 0, none, true, some 1⟩ : PostRec) ∉
      (get_posts_paginated dbDeleted 0 10).1 ∧
    get_comment dbDeleted 2 = none ∧
    get_tag dbDeleted 2 = none ∧
    (⟨2, "tg", true, some 1⟩ : TagRec) ∉ (get_tags_paginated dbDeleted 0 10).1 ∧
    get_user_with_posts dbDeleted 3 = none ∧
    uDel ∉ (get_users_paginated dbDeleted 0 10).1 ∧
    get_user dbDeleted 3 = some uDel ∧
    (∀ i, ((delete_post 5 dbDeleted i).2.posts).length = dbDeleted.posts.length) ∧
    (∀ i, ((delete_comment 5 dbDeleted i).2.comments).length = dbDeleted.comments.length) ∧
    (∀ i, ((delete_tag 5 dbDeleted i).2.tags).length = dbDeleted.tags.length) ∧
    (∀ i, ((delete_user 5 dbDeleted i).2.users).length = dbDeleted.users.length) ∧
    (⟨2, "t", "c", 3, 0, none, true, some 1⟩ : PostRec).restore.is_deleted = false ∧
    (⟨2, "t", "c", 3, 0, none, true, some 1⟩ : PostRec).restore.deleted_at = none ∧
    (⟨2, "c", 2, 3, none, true, some 1⟩ : CommentRec).restore.is_deleted = false ∧
    (⟨2, "c", 2, 3, none, true, some 1⟩ : CommentRec).restore.deleted_at = none ∧
    (⟨2, "tg", true, some 1⟩ : TagRec).restore.is_deleted = false ∧
    (⟨2, "tg", true, some 1⟩ : TagRec).restore.deleted_at = none ∧
    uDel.restore.is_deleted = false ∧ uDel.restore.deleted_at = none :=
  soft_delete_default_exclusion dbDeleted 0 10 5
    ⟨2, "t", "c", 3, 0, none, true, some 1⟩ ⟨2, "c", 2, 3, none, true, some 1⟩
    ⟨2, "tg", true, some 1⟩ uDel
    (by decide) (by decide) (by decide) (by decide) (by decide) (by decide)
    (by decide) (by decide) (by decide) (by decide) (by decide) (by decide)

/-- C10: restore on an already-active target is not uniform across entities:
`restore_post` reports failure (`False`) and the comment-restore route answers
404, while `restore_tag` and `restore_user` report success (`True`); in every
case the store is left unmodified. -/
theorem restore_active_nonuniform (db : DB) (p : PostRec) (c : CommentRec)
    (t : TagRec) (u : UserRec) (cu : UserRec)
    (hp : db.posts.find? (fun x => x.id == p.id) = some p) (hpd : p.is_deleted = false)
    (hc : db.comments.find? (fun x => x.id == c.id) = some c) (hcd : c.is_deleted = false)
    (ht : db.tags.find? (fun x => x.id == t.id) = some t) (htd : t.is_deleted = false)
    (hu : get_user db u.id = some u) (hud : u.is_deleted = false)
    (hadm : cu.is_admin = true) (hact : cu.is_active = true) :
    restore_post db p.id = (false, db) ∧
    restore_comment_endpoint db cu c.id = (.error 404, db) ∧
    restore_tag db t.id = (true, db) ∧
    restore_user db u.id = (true, db) := by
  refine ⟨?_, ?_, ?_, ?_⟩
  · simp [restore_post, hp, hpd]
  · simp [restore_comment_endpoint, hadm, hact, hc, hcd]
  · simp [restore_tag, ht, htd]
  · simp [restore_user, hu, hud]

/-- Witness for `restore_active_nonuniform` on `dbActive`, the admin with
id 9 calling the comment-restore route. -/
theorem restore_active_nonuniform_witness :
    restore_post dbActive (mkPost 0).id = (false, dbActive) ∧
    restore_comment_endpoint dbActive
      ⟨9, "root", "r@x", "R", "h", true, true, false, none⟩ 1 = (.error 404, dbActive) ∧
    restore_tag dbActive 1 = (true, dbActive) ∧
    restore_user dbActive 1 = (true, dbActive) :=
  restore_active_nonuniform dbActive (mkPost 0)
    ⟨1, "c", 1, 1, none, false, none⟩ ⟨1, "tg", false, none⟩
    ⟨1, "u", "u@x", "U", "h", true, false, false, none⟩
    ⟨9, "root", "r@x", "R", "h", true, true, false, none⟩
    (by decide) (by decide) (by decide) (by decide) (by decide) (by decide)
    (by decide) (by decide) (by decide) (by decide)

/-- C8: soft-deleting a post does not cascade: after a successful
`delete_post`, the comments (and users and tags) tables are exactly as
before, the post's `is_deleted`/`deleted_at` are set, every other field of
the post is unchanged, and every other post row is untouched. -/
theorem delete_post_no_cascade (now : Nat) (db : DB) (p : PostRec)
    (hnd : (db.posts.map PostRec.id).Nodup) (hp : p ∈ db.posts)
    (hact : p.is_deleted = false) :
    (delete_post now db p.id).1 = true ∧
    (delete_post now db p.id).2.comments = db.comments ∧
    (delete_post now db p.id).2.users = db.users ∧
    (delete_post now db p.id).2.tags = db.tags ∧
    p.soft_delete now ∈ (delete_post now db p.id).2.posts ∧
    (p.soft_delete now).is_deleted = true ∧
    (p.soft_delete now).deleted_at = some now ∧
    (p.soft_delete now).id = p.id ∧
    (p.soft_delete now).title = p.title ∧
    (p.soft_delete now).content = p.content ∧
    (p.soft_delete now).author_id = p.author_id ∧
    (p.soft_delete now).created_at = p.created_at ∧
    (p.soft_delete now).updated_at = p.updated_at ∧
    (∀ q ∈ db.posts, q.id ≠ p.id → q ∈ (delete_post now db p.id).2.posts) := by
  have hget : get_post db p.id = some p := by
    apply find_pred_eq_some_of_nodup PostRec.id db.posts hnd p hp
    · simp [hact]
    · intro x hx
      simp only [Bool.and_eq_true, beq_iff_eq] at hx
      exact hx.1
  have hdel : delete_post now db p.id =
      (true, db.updatePost p.id (PostRec.soft_delete now)) := by
    simp [delete_post, hget]
  rw [hdel]
  refine ⟨rfl, rfl, rfl, rfl, ?_, rfl, rfl, rfl, rfl, rfl, rfl, rfl, rfl, ?_⟩
  · exact mem_map_update_self PostRec.id (PostRec.soft_delete now) p db.posts hp
  · intro q hq hne
    have h : (if q.id = p.id then PostRec.soft_delete now q else q) ∈
        db.posts.map fun x => if x.id = p.id then PostRec.soft_delete now x else x :=
      List.mem_map_of_mem _ hq
    rw [if_neg hne] at h
    exact h

/-- Witness for `delete_post_no_cascade` on `dbActive` (one post with one
comment). -/
theorem delete_post_no_cascade_witness :
    (delete_post 7 dbActive (mkPost 0).id).1 = true ∧
    (delete_post 7 dbActive (mkPost 0).id).2.comments = dbActive.comments ∧
    (delete_post 7 dbActive (mkPost 0).id).2.users = dbActive.users ∧
    (delete_post 7 dbActive (mkPost 0).id).2.tags = dbActive.tags ∧
    (mkPost 0).soft_delete 7 ∈ (delete_post 7 dbActive (mkPost 0).id).2.posts ∧
    ((mkPost 0).soft_delete 7).is_deleted = true ∧
    ((mkPost 0).soft_delete 7).deleted_at = some 7 ∧
    ((mkPost 0).soft_delete 7).id = (mkPost 0).id ∧
    ((mkPost 0).soft_delete 7).title = (mkPost 0).title ∧
    ((mkPost 0).soft_delete 7).content = (mkPost 0).content ∧
    ((mkPost 0).soft_delete 7).author_id = (mkPost 0).author_id ∧
    ((mkPost 0).soft_delete 7).created_at = (mkPost 0).created_at ∧
    ((mkPost 0).soft_delete 7).updated_at = (mkPost 0).updated_at ∧
    (∀ q ∈ dbActive.posts, q.id ≠ (mkPost 0).id →
      q ∈ (delete_post 7 dbActive (mkPost 0).id).2.posts) :=
  delete_post_no_cascade 7 dbActive (mkPost 0) (by decide) (by decide) (by decide)

/-- C4: soft-deleting a stored active tag or post and then restoring it
returns it to the default (active) listing: the delete succeeds, the deleted
row is absent from every default listing page yet present in the deleted
listing, the restore succeeds, and the restored row satisfies
`is_deleted = false` and reappears in the default listing. -/
theorem delete_restore_roundtrip (now : Nat) (db : DB) (t : TagRec) (p : PostRec)
    (hndt : (db.tags.map TagRec.id).Nodup) (ht : t ∈ db.tags) (htd : t.is_deleted = false)
    (hndp : (db.posts.map PostRec.id).Nodup) (hp : p ∈ db.posts)
    (hpd : p.is_deleted = false) :
    (delete_tag now db t.id).1 = true ∧
    (∀ skip limit, t.soft_delete now ∉
      (get_tags_paginated (delete_tag now db t.id).2 skip limit).1) ∧
    (∀ limit, db.tags.length ≤ limit →
      t.soft_delete now ∈ get_deleted_tags (delete_tag now db t.id).2 0 limit) ∧
    (restore_tag (delete_tag now db t.id).2 t.id).1 = true ∧
    ((t.soft_delete now).restore).is_deleted = false ∧
    (∀ limit, db.tags.length ≤ limit →
      (t.soft_delete now).restore ∈
        (get_tags_paginated (restore_tag (delete_tag now db t.id).2 t.id).2 0 limit).1) ∧
    (delete_post now db p.id).1 = true ∧
    (∀ skip limit, p.soft_delete now ∉
      (get_posts_paginated (delete_post now db p.id).2 skip limit).1) ∧
    (∀ limit, db.posts.length ≤ limit →
      p.soft_delete now ∈ get_deleted_posts (delete_post now db p.id).2 0 limit) ∧
    (restore_post (delete_post now db p.id).2 p.id).1 = true ∧
    ((p.soft_delete now).restore).is_deleted = false ∧
    (∀ limit, db.posts.length ≤ limit →
      (p.soft_delete now).restore ∈
        (get_posts_paginated (restore_post (delete_post now db p.id).2 p.id).2 0 limit).1) := by
  have Rt := roundtrip_lists TagRec.id TagRec.is_deleted (TagRec.soft_delete now)
    TagRec.restore (fun _ => rfl) (fun _ => rfl) (fun _ => rfl) db.tags hndt t ht
  have Rp := roundtrip_lists PostRec.id PostRec.is_deleted (PostRec.soft_delete now)
    PostRec.restore (fun _ => rfl) (fun _ => rfl) (fun _ => rfl) db.posts hndp p hp
  have hgett : get_tag db t.id = some t := by
    apply find_pred_eq_some_of_nodup TagRec.id db.tags hndt t ht
    · simp [htd]
    · intro x hx
      simp only [Bool.and_eq_true, beq_iff_eq] at hx
      exact hx.1
  have hgetp : get_post db p.id = some p := by
    apply find_pred_eq_some_of_nodup PostRec.id db.posts hndp p hp
    · simp [hpd]
    · intro x hx
      simp only [Bool.and_eq_true, beq_iff_eq] at hx
      exact hx.1
  have hdelt : delete_tag now db t.id =
      (true, db.updateTag t.id (TagRec.soft_delete now)) := by
    simp [delete_tag, hgett]
  have hdelp : delete_post now db p.id =
      (true, db.updatePost p.id (PostRec.soft_delete now)) := by
    simp [delete_post, hgetp]
  have hd2t : (delete_tag now db t.id).2 = db.updateTag t.id (TagRec.soft_delete now) := by
    rw [hdelt]
  have hd2p : (delete_post now db p.id).2 = db.updatePost p.id (PostRec.soft_delete now) := by
    rw [hdelp]
  have hfindt : ((db.updateTag t.id (TagRec.soft_delete now)).tags.find?
      fun x => x.id == t.id) = some (t.soft_delete now) := Rt.2.2.2.1
  have hfindp : ((db.updatePost p.id (PostRec.soft_delete now)).posts.find?
      fun x => x.id == p.id) = some (p.soft_delete now) := Rp.2.2.2.1
  have hrestt : restore_tag (db.updateTag t.id (TagRec.soft_delete now)) t.id =
      (true, (db.updateTag t.id (TagRec.soft_delete now)).updateTag t.id TagRec.restore) := by
    simp [restore_tag, hfindt, TagRec.soft_delete]
  have hrestp : restore_post (db.updatePost p.id (PostRec.soft_delete now)) p.id =
      (true, (db.updatePost p.id (PostRec.soft_delete now)).updatePost p.id
        PostRec.restore) := by
    simp [restore_post, hfindp, PostRec.soft_delete]
  refine ⟨by rw [hdelt], ?_, ?_, by rw [hd2t, hrestt], rfl, ?_,
    by rw [hdelp], ?_, ?_, by rw [hd2p, hrestp], rfl, ?_⟩
  · intro skip limit hmem
    rw [hd2t] at hmem
    exact Rt.2.1 skip limit (by exact hmem)
  · intro limit hlim
    rw [hd2t]
    exact Rt.2.2.1 limit hlim
  · intro limit hlim
    rw [hd2t, hrestt]
    exact Rt.2.2.2.2 limit hlim
  · intro skip limit hmem
    rw [hd2p] at hmem
    exact Rp.2.1 skip limit (by exact hmem)
  · intro limit hlim
    rw [hd2p]
    exact Rp.2.2.1 limit hlim
  · intro limit hlim
    rw [hd2p, hrestp]
    exact Rp.2.2.2.2 limit hlim

/-- Witness for `delete_restore_roundtrip` on `dbActive` (one active tag and
one active post). -/
theorem delete_restore_roundtrip_witness :
    (delete_tag 7 dbActive (⟨1, "tg", false, none⟩ : TagRec).id).1 = true ∧
    (∀ skip limit, (⟨1, "tg", false, none⟩ : TagRec).soft_delete 7 ∉
      (get_tags_paginated (delete_tag 7 dbActive (⟨1, "tg", false, none⟩ : TagRec).id).2
        skip limit).1) ∧
    (∀ limit, dbActive.tags.length ≤ limit →
      (⟨1, "tg", false, none⟩ : TagRec).soft_delete 7 ∈
        get_deleted_tags (delete_tag 7 dbActive (⟨1, "tg", false, none⟩ : TagRec).id).2
          0 limit) ∧
    (restore_tag (delete_tag 7 dbActive (⟨1, "tg", false, none⟩ : TagRec).id).2
      (⟨1, "tg", false, none⟩ : TagRec).id).1 = true ∧
    (((⟨1, "tg", false, none⟩ : TagRec).soft_delete 7).restore).is_deleted = false ∧
    (∀ limit, dbActive.tags.length ≤ limit →
      ((⟨1, "tg", false, none⟩ : TagRec).soft_delete 7).restore ∈
        (get_tags_paginated
          (restore_tag (delete_tag 7 dbActive (⟨1, "tg", false, none⟩ : TagRec).id).2
            (⟨1, "tg", false, none⟩ : TagRec).id).2 0 limit).1) ∧
    (delete_post 7 dbActive (mkPost 0).id).1 = true ∧
    (∀ skip limit, (mkPost 0).soft_delete 7 ∉
      (get_posts_paginated (delete_post 7 dbActive (mkPost 0).id).2 skip limit).1) ∧
    (∀ limit, dbActive.posts.length ≤ limit →
      (mkPost 0).soft_delete 7 ∈
        get_deleted_posts (delete_post 7 dbActive (mkPost 0).id).2 0 limit) ∧
    (restore_post (delete_post 7 dbActive (mkPost 0).id).2 (mkPost 0).id).1 = true ∧
    (((mkPost 0).soft_delete 7).restore).is_deleted = false ∧
    (∀ limit, dbActive.posts.length ≤ limit →
      ((mkPost 0).soft_delete 7).restore ∈
        (get_posts_paginated
          (restore_post (delete_post 7 dbActive (mkPost 0).id).2 (mkPost 0).id).2
          0 limit).1) :=
  delete_restore_roundtrip 7 dbActive ⟨1, "tg", false, none⟩ (mkPost 0)
    (by decide) (by decide) (by decide) (by decide) (by decide) (by decide)

/-- C5: on the ownership fixture, a non-owner non-admin mutation leaves the
store unchanged and the PATCH routes answer 403 as specified; but the DELETE
routes for posts and comments raise the 403 inside a bare `except Exception`
clause (no `except HTTPException: raise`), so the 403 the code constructs is
replaced by a generic 500 on the wire; the ownership check itself passes for
the recorded author and for an admin. -/
theorem delete_routes_swallow_403 :
    update_post_endpoint 7 dbOwn uAtt 1 ⟨none, none⟩ = (.error 403, dbOwn) ∧
    update_comment_endpoint 7 dbOwn uAtt 1 ⟨none⟩ = (.error 403, dbOwn) ∧
    delete_post_route_body 7 dbOwn uAtt 1 = (.error 403, dbOwn) ∧
    delete_comment_route_body 7 dbOwn uAtt 1 = (.error 403, dbOwn) ∧
    delete_post_endpoint 7 dbOwn uAtt 1 = (.error 500, dbOwn) ∧
    delete_comment_endpoint 7 dbOwn uAtt 1 = (.error 500, dbOwn) ∧
    (update_post_endpoint 7 dbOwn uAuthor 1 ⟨none, none⟩).1.isOk = true ∧
    (update_post_endpoint 7 dbOwn uAdmin 1 ⟨none, none⟩).1.isOk = true ∧
    (delete_post_endpoint 7 dbOwn uAuthor 1).1.isOk = true ∧
    (delete_comment_endpoint 7 dbOwn uAdmin 1).1.isOk = true := by
  exact ⟨rfl, rfl, rfl, rfl, rfl, rfl, rfl, rfl, rfl, rfl⟩

/-- C9 amended: an unexpected exception in a single-resource handler is
converted to a generic 500 with no state change (rollback only), but the
paginated listing helpers `get_posts_paginated`/`get_tags_paginated` swallow
unexpected exceptions and return an empty page with `total = 0`, which the
listing routes serve as a success response. -/
theorem unexpected_exception_policy (db : DB) (skip limit post_id : Nat) (h : 1 ≤ limit) :
    read_post_exc true db post_id = .error 500 ∧
    read_posts_exc true db skip limit =
      .ok { items := [], total := 0, page := skip / limit + 1, size := 0, total_pages := 0 } ∧
    read_tags_exc true db skip limit =
      .ok { items := [], total := 0, page := skip / limit + 1, size := 0, total_pages := 0 } := by
  have hpos : 0 < limit := h
  have hz : (limit - 1) / limit = 0 := Nat.div_eq_of_lt (by omega)
  refine ⟨rfl, ?_, ?_⟩
  · simp [read_posts_exc, get_posts_paginated_exc, hpos, hz]
  · simp [read_tags_exc, get_tags_paginated_exc, hpos, hz]

/-- Witness for `unexpected_exception_policy` on the one-post snapshot. -/
theorem unexpected_exception_policy_witness :
    read_post_exc true db1post 1 = .error 500 ∧
    read_posts_exc true db1post 0 10 =
      .ok { items := [], total := 0, page := 0 / 10 + 1, size := 0, total_pages := 0 } ∧
    read_tags_exc true db1post 0 10 =
      .ok { items := [], total := 0, page := 0 / 10 + 1, size := 0, total_pages := 0 } :=
  unexpected_exception_policy db1post 0 10 1 (by decide)
